import Mathlib

set_option maxRecDepth 8000

/-!
Verification development for the coda-mcp-server request/response adapter
(`src/coda_mcp_server/server.py`): the parameter normalizer `clean_params`,
the `CodaClient` constructor and `request` method, and the export-status
tool `get_page_content_export_status`, together with the body-building
logic of `upsert_rows`, `update_row` and `update_page`.

Python values flowing through the adapter (arguments, query/body mappings,
decoded JSON) are embedded as the inductive type `Val`; Python `dict`s are
association lists that preserve insertion order, as CPython dicts do.
-/

/-- Embedding of the Python values the adapter handles: `None`, `bool`,
`str`, `int`, lists, and dicts (insertion-ordered association lists). -/
inductive Val where
  | null
  | boolV (b : Bool)
  | strV (s : String)
  | intV (n : Int)
  | listV (xs : List Val)
  | dictV (fs : List (String × Val))

/-- Python truthiness (`bool(v)`): `None` and `False` are falsy, numbers are
truthy iff nonzero, strings/lists/dicts are truthy iff non-empty. -/
def Val.truthy : Val → Bool
  | Val.null => false
  | Val.boolV b => b
  | Val.strV s => s != ""
  | Val.intV n => n != 0
  | Val.listV xs => !xs.isEmpty
  | Val.dictV fs => !fs.isEmpty

/-- Python `v is None`. -/
def Val.isNull : Val → Bool
  | Val.null => true
  | _ => false

/-- Python `isinstance(v, dict)`. -/
def Val.isDict : Val → Bool
  | Val.dictV _ => true
  | _ => false

/-- Python `v == lit` for a string literal `lit`: true exactly when `v` is an
equal string (no other value in this universe compares equal to a `str`). -/
def Val.eqString : Val → String → Bool
  | Val.strV s, t => s == t
  | _, _ => false

/-- First binding of key `k` in an association-list dict (Python dicts have
unique keys, so the first binding is the binding). -/
def lookupVal (fs : List (String × Val)) (k : String) : Option Val :=
  match fs with
  | [] => Option.none
  | p :: rest => if p.fst == k then some p.snd else lookupVal rest k

/-- Python `d.get(k)`: the bound value, or `None` when the key is absent. -/
def dictGet (fs : List (String × Val)) (k : String) : Val :=
  match lookupVal fs k with
  | some v => v
  | Option.none => Val.null

/-- Python `d[k] = v`: overwrite in place when the key exists (its position
is preserved), otherwise append the new binding at the end. -/
def dictSet (fs : List (String × Val)) (k : String) (v : Val) : List (String × Val) :=
  if fs.any (fun p => p.fst == k) then
    fs.map (fun p => if p.fst == k then (p.fst, v) else p)
  else fs ++ [(k, v)]

mutual

/-- Python `repr` of an embedded value (`str` falls back to this for
non-string values inside f-strings).  A string is wrapped in single quotes;
CPython would switch to double quotes for a string that itself contains a
single quote, an edge no payload in this development exercises. -/
def pyRepr : Val → String
  | Val.null => "None"
  | Val.boolV true => "True"
  | Val.boolV false => "False"
  | Val.intV n => toString n
  | Val.strV s => "\x27" ++ s ++ "\x27"
  | Val.listV xs => "[" ++ pyReprList xs ++ "]"
  | Val.dictV fs => "\x7b" ++ pyReprDict fs ++ "\x7d"

/-- Comma-separated `repr`s of list elements. -/
def pyReprList : List Val → String
  | [] => ""
  | [x] => pyRepr x
  | x :: xs => pyRepr x ++ ", " ++ pyReprList xs

/-- Comma-separated `key: value` `repr`s of dict entries. -/
def pyReprDict : List (String × Val) → String
  | [] => ""
  | [p] => "\x27" ++ p.fst ++ "\x27: " ++ pyRepr p.snd
  | p :: ps => "\x27" ++ p.fst ++ "\x27: " ++ pyRepr p.snd ++ ", " ++ pyReprDict ps

end

/-- Python `str(v)` as used by f-string interpolation: the string itself for
`str` values, `repr`-like text otherwise (`str(True) = "True"`,
`str(None) = "None"`, `str(3) = "3"`). -/
def pyStr : Val → String
  | Val.strV s => s
  | v => pyRepr v

/-- Python `str` applied to an optional token (`str(None) = "None"`), as in
the `Authorization` header f-string. -/
def pyOptStr : Option String → String
  | Option.none => "None"
  | some s => s

/-- `clean_params` (server.py lines 14-23): drop `None`-valued keys, replace
booleans by `str(v).lower()` (`"true"`/`"false"`), keep everything else
unchanged, preserving order. -/
def clean_params : List (String × Val) → List (String × Val)
  | [] => []
  | (k, v) :: rest =>
    match v with
    | Val.null => clean_params rest
    | Val.boolV b => (k, Val.strV (if b then "true" else "false")) :: clean_params rest
    | Val.strV s => (k, Val.strV s) :: clean_params rest
    | Val.intV n => (k, Val.intV n) :: clean_params rest
    | Val.listV xs => (k, Val.listV xs) :: clean_params rest
    | Val.dictV fs => (k, Val.dictV fs) :: clean_params rest

/-- Boolean prefix test on character lists (the first argument is the
candidate prefix). -/
def charsPre : List Char → List Char → Bool
  | [], _ => true
  | _ :: _, [] => false
  | a :: as, b :: bs => a == b && charsPre as bs

/-- Python `s.startswith(p)`. -/
def pyStartsWith (s p : String) : Bool := charsPre p.data s.data

/-- The response the transport hands back: status code, HTTP reason phrase,
the `Retry-After` header when present, the raw body text, and the result of
JSON-decoding that body (`Option.none` when the body is not valid JSON).
`decoded` stands for both `await response.json()` and
`json.loads(response_text)`, which in `request` are applied to the same
body. -/
structure HttpResponse where
  status : Nat
  reason : String
  retryAfter : Option String
  body : String
  decoded : Option Val

/-- `aiohttp.ClientResponse.ok`: true exactly when the status is below 400
(note: this includes 3xx statuses, not only 2xx). -/
def responseOk (status : Nat) : Bool := status < 400

/-- Outcome of one `CodaClient.request` call: a decoded JSON value, or a
raised exception carrying its message string (the source raises the generic
`Exception` class and distinguishes kinds by message prefix). -/
inductive ReqResult where
  | ok (v : Val)
  | err (msg : String)

/-- The error-message construction of server.py lines 57-74: start from
`"API Error {status}: {reason}"`; if the decoded body is a truthy dict
(`error_data and isinstance(error_data, dict)`), prefer its `message` field,
then its `error` field; otherwise (`elif response_text`) use the raw body
text when non-empty. -/
def apiErrorMessage (r : HttpResponse) : String :=
  match r.decoded with
  | some d =>
    if d.truthy && d.isDict then
      match d with
      | Val.dictV fs =>
        (match lookupVal fs "message" with
         | some v => "API Error " ++ toString r.status ++ ": " ++ pyStr v
         | Option.none =>
           match lookupVal fs "error" with
           | some v => "API Error " ++ toString r.status ++ ": " ++ pyStr v
           | Option.none => "API Error " ++ toString r.status ++ ": " ++ r.reason)
      | _ => "API Error " ++ toString r.status ++ ": " ++ r.reason
    else if r.body != "" then "API Error " ++ toString r.status ++ ": " ++ r.body
    else "API Error " ++ toString r.status ++ ": " ++ r.reason
  | Option.none =>
    if r.body != "" then "API Error " ++ toString r.status ++ ": " ++ r.body
    else "API Error " ++ toString r.status ++ ": " ++ r.reason

/-- The `try` body of `CodaClient.request` (server.py lines 50-84) applied
to a received response: 429 raises the rate-limit message first; then
`if not response.ok` raises the API error message; 204 returns `{}`;
otherwise `json.loads(response_text) if response_text else {}`, raising the
`Invalid JSON response` message (with the body truncated to its first 200
characters) when decoding fails. -/
def requestTryBody (r : HttpResponse) : ReqResult :=
  if r.status = 429 then
    ReqResult.err ("Rate limit exceeded. Retry after " ++ r.retryAfter.getD "60" ++ " seconds.")
  else if responseOk r.status = false then
    ReqResult.err (apiErrorMessage r)
  else if r.status = 204 then
    ReqResult.ok (Val.dictV [])
  else if r.body = "" then
    ReqResult.ok (Val.dictV [])
  else
    match r.decoded with
    | some v => ReqResult.ok v
    | Option.none => ReqResult.err ("Invalid JSON response: " ++ r.body.take 200)

/-- The `str(e).startswith((...))` test of server.py line 90, over the exact
prefix tuple `("API Error", "Rate limit", "Invalid JSON", "Network error")`. -/
def isCustomError (msg : String) : Bool :=
  pyStartsWith msg "API Error" || pyStartsWith msg "Rate limit" ||
    pyStartsWith msg "Invalid JSON" || pyStartsWith msg "Network error"

/-- The `except Exception` clause (server.py lines 88-93): re-raise a
recognized custom error unchanged, wrap anything else as
`"Unexpected error: ..."`. -/
def rethrowFilter (msg : String) : String :=
  if isCustomError msg then msg else "Unexpected error: " ++ msg

/-- The error taxonomy of the specification, named by the message prefix
each kind carries in the source. -/
inductive ErrKind where
  | network
  | rateLimited
  | api
  | malformed
  | unexpected
deriving DecidableEq

/-- The discrimination a caller can perform on a raised message, induced by
the source's own prefix tuple (checked in tuple order). -/
def classifyError (msg : String) : ErrKind :=
  if pyStartsWith msg "API Error" then ErrKind.api
  else if pyStartsWith msg "Rate limit" then ErrKind.rateLimited
  else if pyStartsWith msg "Invalid JSON" then ErrKind.malformed
  else if pyStartsWith msg "Network error" then ErrKind.network
  else ErrKind.unexpected

/-- `CodaClient.request` on the result of the transport attempt: an
`aiohttp.ClientError` with message `cause` is wrapped as
`"Network error: ..."` inside its own `except` clause (not re-filtered,
since an exception raised in an `except` clause is not caught by the later
clauses of the same `try`); any exception raised by the `try` body passes
through the `except Exception` re-raise filter. -/
def codaRequest : Except String HttpResponse → ReqResult
  | Except.error cause => ReqResult.err ("Network error: " ++ cause)
  | Except.ok r =>
    match requestTryBody r with
    | ReqResult.ok v => ReqResult.ok v
    | ReqResult.err m => ReqResult.err (rethrowFilter m)

/-- The state `CodaClient.__init__` builds (server.py lines 39-43). -/
structure CodaClient where
  api_token : Option String
  base_url : String
  headers : List (String × String)

/-- `CodaClient.__init__`: `os.getenv("CODA_API_KEY", api_token)` yields the
environment value when the variable is set, else the passed token (possibly
`None`); the `Authorization` header interpolates `str` of that result.  The
constructor is total: no check or error is performed. -/
def CodaClient.init (env : Option String) (api_token : Option String) : CodaClient :=
  let token := match env with
    | some v => some v
    | Option.none => api_token
  { api_token := token
    base_url := "https://coda.io/apis/v1"
    headers := [("Authorization", "Bearer " ++ pyOptStr token),
                ("Content-Type", "application/json")] }

/-- One outbound HTTP GET performed by the export-status auto-download:
the URL value passed to `session.get` and the headers of that session call
(the source passes none, so the call is unauthenticated). -/
structure DownloadCall where
  url : Val
  headers : List (String × String)

/-- The post-processing step of `get_page_content_export_status`
(server.py lines 405-414) on a successfully polled `payload`, with `fetch`
standing for the body text returned by `session.get(download_url)`: when
`result.get("status") == "complete" and result.get("downloadLink")`, one
unauthenticated GET is made to the download link and its text is stored
under `result["content"]`; otherwise the payload is returned unchanged.
The second component lists the download calls performed. -/
def exportStatusStep (payload : List (String × Val)) (fetch : Val → String) :
    List (String × Val) × List DownloadCall :=
  if (dictGet payload "status").eqString "complete" && (dictGet payload "downloadLink").truthy then
    let download_url := dictGet payload "downloadLink"
    (dictSet payload "content" (Val.strV (fetch download_url)),
     [{ url := download_url, headers := [] }])
  else
    (payload, [])

/-- The POST body of `upsert_rows` (server.py lines 645-650): a dict of
`rows`, `keyColumns`, `disableParsing` passed through `clean_params` and
sent as `json=`. -/
def upsert_rows_body (rows : List Val) (key_columns : Val) (disable_parsing : Val) :
    List (String × Val) :=
  clean_params [("rows", Val.listV rows), ("keyColumns", key_columns),
                ("disableParsing", disable_parsing)]

/-- The PUT body of `update_row` (server.py lines 673-679): a dict of
`row`, `disableParsing` passed through `clean_params` and sent as `json=`. -/
def update_row_body (row : List (String × Val)) (disable_parsing : Val) :
    List (String × Val) :=
  clean_params [("row", Val.dictV row), ("disableParsing", disable_parsing)]

/-- The PUT body of `update_page` (server.py lines 315-328): keys added one
by one under `is not None` guards, with no `clean_params` pass, so
`is_hidden` is stored as the native boolean. -/
def update_page_body (name subtitle icon_name image_url is_hidden content_update : Val) :
    List (String × Val) :=
  (if name.isNull then [] else [("name", name)]) ++
  (if subtitle.isNull then [] else [("subtitle", subtitle)]) ++
  (if icon_name.isNull then [] else [("iconName", icon_name)]) ++
  (if image_url.isNull then [] else [("imageUrl", image_url)]) ++
  (if is_hidden.isNull then [] else [("isHidden", is_hidden)]) ++
  (if content_update.isNull then [] else [("contentUpdate", content_update)])

/-- The amended C4 message precedence, stated on its own terms: when the
body decodes to a non-empty JSON mapping, use its `message` field, else its
`error` field, else the reason phrase; when it does not decode to a
non-empty mapping, use the raw body text when non-empty, else the reason
phrase.  To be proved equal to what `codaRequest` raises for statuses at
least 400 other than 429. -/
def apiErrorMessageSpec (r : HttpResponse) : String :=
  match r.decoded with
  | some (Val.dictV (f :: fs)) =>
    (match lookupVal (f :: fs) "message" with
     | some v => "API Error " ++ toString r.status ++ ": " ++ pyStr v
     | Option.none =>
       match lookupVal (f :: fs) "error" with
       | some v => "API Error " ++ toString r.status ++ ": " ++ pyStr v
       | Option.none => "API Error " ++ toString r.status ++ ": " ++ r.reason)
  | _ =>
    if r.body != "" then "API Error " ++ toString r.status ++ ": " ++ r.body
    else "API Error " ++ toString r.status ++ ": " ++ r.reason

/-!  Helper lemmas shared by the claim theorems. -/

theorem charsPre_append_of_le : ∀ (p a t : List Char), p.length ≤ a.length →
    charsPre p (a ++ t) = charsPre p a
  | [], _, _, _ => rfl
  | _ :: _, [], _, h => by simp at h
  | x :: xs, y :: ys, t, h => by
    simp only [List.cons_append, charsPre]
    have := charsPre_append_of_le xs ys t (Nat.le_of_succ_le_succ h)
    rw [show ys.append t = ys ++ t from rfl, this]

theorem pyStartsWith_head (L t P : String) (h : P.data.length ≤ L.data.length) :
    pyStartsWith (L ++ t) P = pyStartsWith L P := by
  unfold pyStartsWith
  rw [String.data_append]
  exact charsPre_append_of_le _ _ _ h

theorem classify_api (t : String) : classifyError ("API Error " ++ t) = ErrKind.api := by
  unfold classifyError
  rw [pyStartsWith_head _ t "API Error" (by decide)]
  have h1 : pyStartsWith "API Error " "API Error" = true := by decide
  simp [h1]

theorem classify_rate (t : String) :
    classifyError ("Rate limit exceeded. Retry after " ++ t) = ErrKind.rateLimited := by
  unfold classifyError
  rw [pyStartsWith_head _ t "API Error" (by decide),
      pyStartsWith_head _ t "Rate limit" (by decide)]
  have h1 : pyStartsWith "Rate limit exceeded. Retry after " "API Error" = false := by decide
  have h2 : pyStartsWith "Rate limit exceeded. Retry after " "Rate limit" = true := by decide
  simp [h1, h2]

theorem classify_invalid (t : String) :
    classifyError ("Invalid JSON response: " ++ t) = ErrKind.malformed := by
  unfold classifyError
  rw [pyStartsWith_head _ t "API Error" (by decide),
      pyStartsWith_head _ t "Rate limit" (by decide),
      pyStartsWith_head _ t "Invalid JSON" (by decide)]
  have h1 : pyStartsWith "Invalid JSON response: " "API Error" = false := by decide
  have h2 : pyStartsWith "Invalid JSON response: " "Rate limit" = false := by decide
  have h3 : pyStartsWith "Invalid JSON response: " "Invalid JSON" = true := by decide
  simp [h1, h2, h3]

theorem classify_network (t : String) :
    classifyError ("Network error: " ++ t) = ErrKind.network := by
  unfold classifyError
  rw [pyStartsWith_head _ t "API Error" (by decide),
      pyStartsWith_head _ t "Rate limit" (by decide),
      pyStartsWith_head _ t "Invalid JSON" (by decide),
      pyStartsWith_head _ t "Network error" (by decide)]
  have h1 : pyStartsWith "Network error: " "API Error" = false := by decide
  have h2 : pyStartsWith "Network error: " "Rate limit" = false := by decide
  have h3 : pyStartsWith "Network error: " "Invalid JSON" = false := by decide
  have h4 : pyStartsWith "Network error: " "Network error" = true := by decide
  simp [h1, h2, h3, h4]

theorem isCustom_of_classify (msg : String) (h : classifyError msg ≠ ErrKind.unexpected) :
    isCustomError msg = true := by
  unfold classifyError at h
  unfold isCustomError
  cases h1 : pyStartsWith msg "API Error" <;>
    cases h2 : pyStartsWith msg "Rate limit" <;>
      cases h3 : pyStartsWith msg "Invalid JSON" <;>
        cases h4 : pyStartsWith msg "Network error" <;>
          simp_all

theorem rethrow_of_classify (msg : String) (h : classifyError msg ≠ ErrKind.unexpected) :
    rethrowFilter msg = msg := by
  unfold rethrowFilter
  rw [isCustom_of_classify msg h]
  simp

theorem apiErrorMessage_shape (r : HttpResponse) :
    ∃ t, apiErrorMessage r = "API Error " ++ t := by
  unfold apiErrorMessage
  repeat' split
  all_goals exact ⟨_, by rw [String.append_assoc, String.append_assoc]⟩

theorem apiErrorMessage_eq_spec (r : HttpResponse) :
    apiErrorMessage r = apiErrorMessageSpec r := by
  unfold apiErrorMessage apiErrorMessageSpec
  cases hd : r.decoded with
  | none => rfl
  | some d =>
    cases d with
    | null => rfl
    | boolV b => cases b <;> rfl
    | strV s => simp [Val.truthy, Val.isDict, Bool.and_false]
    | intV n => simp [Val.truthy, Val.isDict, Bool.and_false]
    | listV xs => simp [Val.truthy, Val.isDict, Bool.and_false]
    | dictV fs =>
      cases fs with
      | nil => rfl
      | cons f rest => simp [Val.truthy, Val.isDict]

theorem eqString_true_iff (v : Val) (t : String) : v.eqString t = true ↔ v = Val.strV t := by
  cases v <;> simp [Val.eqString]

theorem lookupVal_none_iff_any (fs : List (String × Val)) (k : String) :
    lookupVal fs k = Option.none ↔ fs.any (fun p => p.fst == k) = false := by
  induction fs with
  | nil => simp [lookupVal]
  | cons p rest ih => cases hpk : (p.fst == k) <;> simp [lookupVal, hpk, ih]

theorem dictSet_of_absent (fs : List (String × Val)) (k : String) (v : Val)
    (h : lookupVal fs k = Option.none) : dictSet fs k v = fs ++ [(k, v)] := by
  unfold dictSet
  rw [(lookupVal_none_iff_any fs k).mp h]
  simp

theorem clean_params_out (ps : List (String × Val)) :
    ∀ k v, (k, v) ∈ clean_params ps → v ≠ Val.null ∧ ∀ b, v ≠ Val.boolV b := by
  induction ps with
  | nil => intro k v h; simp [clean_params] at h
  | cons p rest ih =>
    obtain ⟨k', v'⟩ := p
    intro k v h
    cases v' <;> simp only [clean_params] at h
    case null => exact ih k v h
    all_goals
      rcases List.mem_cons.mp h with h1 | h2
      · rw [Prod.mk.injEq] at h1
        rw [h1.2]
        exact ⟨by simp, by simp⟩
      · exact ih k v h2

theorem clean_params_id (ps : List (String × Val)) :
    ∀ k v, (k, v) ∈ ps → v ≠ Val.null → (∀ b, v ≠ Val.boolV b) → (k, v) ∈ clean_params ps := by
  induction ps with
  | nil => intro k v h; simp at h
  | cons p rest ih =>
    obtain ⟨k', v'⟩ := p
    intro k v h hn hb
    rcases List.mem_cons.mp h with h1 | h2
    · rw [Prod.mk.injEq] at h1
      obtain ⟨hk, hv⟩ := h1
      subst hk; subst hv
      cases v with
      | null => exact absurd rfl hn
      | boolV b => exact absurd rfl (hb b)
      | strV s => simp [clean_params]
      | intV n => simp [clean_params]
      | listV xs => simp [clean_params]
      | dictV fs => simp [clean_params]
    · have := ih k v h2 hn hb
      cases v' <;> simp [clean_params, this]

theorem clean_params_bool (ps : List (String × Val)) :
    ∀ k b, (k, Val.boolV b) ∈ ps →
      (k, Val.strV (if b then "true" else "false")) ∈ clean_params ps := by
  induction ps with
  | nil => intro k b h; simp at h
  | cons p rest ih =>
    obtain ⟨k', v'⟩ := p
    intro k b h
    rcases List.mem_cons.mp h with h1 | h2
    · rw [Prod.mk.injEq] at h1
      obtain ⟨hk, hv⟩ := h1
      subst hk
      rw [← hv]
      simp [clean_params]
    · have := ih k b h2
      cases v' <;> simp [clean_params, this]

theorem clean_params_keys_sub (ps : List (String × Val)) :
    ∀ k, k ∈ (clean_params ps).map Prod.fst → k ∈ ps.map Prod.fst := by
  induction ps with
  | nil => intro k h; simp [clean_params] at h
  | cons p rest ih =>
    obtain ⟨k', v'⟩ := p
    intro k h
    cases v' <;> simp only [clean_params, List.map_cons, List.mem_cons] at h ⊢
    case null => exact Or.inr (ih k h)
    all_goals
      rcases h with h1 | h2
      · exact Or.inl h1
      · exact Or.inr (ih k h2)

theorem clean_params_null_key (ps : List (String × Val)) (k : String)
    (hnd : (ps.map Prod.fst).Nodup) (h : (k, Val.null) ∈ ps) :
    k ∉ (clean_params ps).map Prod.fst := by
  induction ps with
  | nil => simp at h
  | cons p rest ih =>
    obtain ⟨k', v'⟩ := p
    simp only [List.map_cons, List.nodup_cons] at hnd
    rcases List.mem_cons.mp h with h1 | h2
    · rw [Prod.mk.injEq] at h1
      obtain ⟨hk, hv⟩ := h1
      subst hk
      rw [← hv]
      simp only [clean_params]
      intro hmem
      exact hnd.1 (clean_params_keys_sub rest k hmem)
    · have hkrest : k ∈ rest.map Prod.fst := by
        exact List.mem_map.mpr ⟨(k, Val.null), h2, rfl⟩
      have hne : k ≠ k' := fun he => hnd.1 (he ▸ hkrest)
      have := ih hnd.2 h2
      cases v' <;> simp [clean_params, this, hne, Ne.symm hne]

/-- C2: `clean_params` never emits a `None`-valued or boolean-valued entry;
every present non-boolean entry of the input reappears unchanged; every
boolean entry reappears as exactly the string `"true"` or `"false"`; and
under the unique-keys discipline of a Python dict, a key bound to `None`
does not appear in the output at all.  The function is a total Lean
function, hence pure and total over all input shapes. -/
theorem clean_params_normalizer (ps : List (String × Val)) :
    (∀ k v, (k, v) ∈ clean_params ps → v ≠ Val.null ∧ ∀ b, v ≠ Val.boolV b) ∧
    (∀ k v, (k, v) ∈ ps → v ≠ Val.null → (∀ b, v ≠ Val.boolV b) → (k, v) ∈ clean_params ps) ∧
    (∀ k b, (k, Val.boolV b) ∈ ps →
      (k, Val.strV (if b then "true" else "false")) ∈ clean_params ps) ∧
    ((ps.map Prod.fst).Nodup → ∀ k, (k, Val.null) ∈ ps → k ∉ (clean_params ps).map Prod.fst) :=
  ⟨clean_params_out ps, clean_params_id ps, clean_params_bool ps,
   fun hnd k h => clean_params_null_key ps k hnd h⟩

/-- Witness for C2 at a concrete parameter mapping. -/
theorem clean_params_normalizer_witness :
    ("d", Val.strV "x") ∈
      clean_params [("a", Val.null), ("b", Val.boolV true), ("c", Val.boolV false),
        ("d", Val.strV "x"), ("e", Val.intV 3)] ∧
    ("b", Val.strV "true") ∈
      clean_params [("a", Val.null), ("b", Val.boolV true), ("c", Val.boolV false),
        ("d", Val.strV "x"), ("e", Val.intV 3)] ∧
    ("c", Val.strV "false") ∈
      clean_params [("a", Val.null), ("b", Val.boolV true), ("c", Val.boolV false),
        ("d", Val.strV "x"), ("e", Val.intV 3)] ∧
    "a" ∉ (clean_params [("a", Val.null), ("b", Val.boolV true), ("c", Val.boolV false),
        ("d", Val.strV "x"), ("e", Val.intV 3)]).map Prod.fst := by
  refine ⟨?_, ?_, ?_, ?_⟩
  · exact (clean_params_normalizer _).2.1 "d" (Val.strV "x") (by simp) (by simp) (by simp)
  · exact (clean_params_normalizer _).2.2.1 "b" true (by simp)
  · exact (clean_params_normalizer _).2.2.1 "c" false (by simp)
  · exact (clean_params_normalizer _).2.2.2 (by simp) "a" (by simp)

/-- C1: when the polled payload has `status = "complete"` and a non-empty
`downloadLink` string, `get_page_content_export_status` performs exactly
one additional GET, carrying no headers (unauthenticated), to that link,
and returns the payload with exactly one added key `content` holding the
fetched body text; when the status is not `"complete"` or the link is
absent, no download call is made and the payload is returned unchanged. -/
theorem export_status_complete (payload : List (String × Val)) (fetch : Val → String)
    (u : String)
    (hs : dictGet payload "status" = Val.strV "complete")
    (hl : dictGet payload "downloadLink" = Val.strV u)
    (hu : u ≠ "")
    (hc : lookupVal payload "content" = Option.none) :
    exportStatusStep payload fetch =
      (payload ++ [("content", Val.strV (fetch (Val.strV u)))],
       [{ url := Val.strV u, headers := [] }]) ∧
    ∀ q : List (String × Val),
      dictGet q "status" ≠ Val.strV "complete" ∨ dictGet q "downloadLink" = Val.null →
      exportStatusStep q fetch = (q, []) := by
  constructor
  · unfold exportStatusStep
    rw [hs, hl]
    have h1 : (Val.strV "complete").eqString "complete" = true := by decide
    have h2 : (Val.strV u).truthy = true := by simp [Val.truthy, hu]
    rw [h1, h2]
    simp [dictSet_of_absent payload "content" _ hc]
  · intro q hq
    unfold exportStatusStep
    rcases hq with hq | hq
    · have hf : (dictGet q "status").eqString "complete" = false := by
        cases hcs : (dictGet q "status").eqString "complete"
        · rfl
        · exact absurd ((eqString_true_iff _ _).mp hcs) hq
      rw [hf]
      simp
    · rw [hq]
      simp [Val.truthy]

/-- Witness for C1 at the scenario payload from the specification. -/
theorem export_status_complete_witness :
    exportStatusStep
        [("id", Val.strV "req1"), ("status", Val.strV "complete"),
         ("downloadLink", Val.strV "https://x/y")]
        (fun _ => "BODY") =
      ([("id", Val.strV "req1"), ("status", Val.strV "complete"),
        ("downloadLink", Val.strV "https://x/y"), ("content", Val.strV "BODY")],
       [{ url := Val.strV "https://x/y", headers := [] }]) :=
  (export_status_complete
    [("id", Val.strV "req1"), ("status", Val.strV "complete"),
     ("downloadLink", Val.strV "https://x/y")]
    (fun _ => "BODY") "https://x/y" rfl rfl (by decide) rfl).1

/-- C6: a polled payload with `status = "failed"` is returned unchanged by
`get_page_content_export_status`: no download call occurs, no exception is
raised by the tool (the step is a total function into a normal result), and
the `error` field is passed through unmodified. -/
theorem export_status_failed (payload : List (String × Val)) (fetch : Val → String)
    (hs : dictGet payload "status" = Val.strV "failed") :
    exportStatusStep payload fetch = (payload, []) ∧
    dictGet (exportStatusStep payload fetch).fst "error" = dictGet payload "error" := by
  have hf : (dictGet payload "status").eqString "complete" = false := by
    rw [hs]; decide
  have h1 : exportStatusStep payload fetch = (payload, []) := by
    unfold exportStatusStep
    rw [hf]
    simp
  exact ⟨h1, by rw [h1]⟩

/-- Witness for C6 at the scenario payload from the specification. -/
theorem export_status_failed_witness :
    exportStatusStep [("status", Val.strV "failed"), ("error", Val.strV "timeout")]
        (fun _ => "") =
      ([("status", Val.strV "failed"), ("error", Val.strV "timeout")], []) :=
  (export_status_failed [("status", Val.strV "failed"), ("error", Val.strV "timeout")]
    (fun _ => "") rfl).1

/-- C3: a 429 response makes `CodaClient.request` fail with the rate-limit
error carrying the `Retry-After` header value, defaulting to `"60"` when the
header is absent; the raised message is classified as the rate-limited kind
by the source's own prefix discrimination.  The function consumes exactly
one response, so no internal retry exists. -/
theorem request_rate_limited (r : HttpResponse) (h : r.status = 429) :
    codaRequest (Except.ok r) =
      ReqResult.err
        ("Rate limit exceeded. Retry after " ++ r.retryAfter.getD "60" ++ " seconds.") ∧
    classifyError
        ("Rate limit exceeded. Retry after " ++ r.retryAfter.getD "60" ++ " seconds.") =
      ErrKind.rateLimited := by
  have hcl : classifyError
      ("Rate limit exceeded. Retry after " ++ r.retryAfter.getD "60" ++ " seconds.") =
      ErrKind.rateLimited := by
    rw [String.append_assoc]
    exact classify_rate _
  have htb : requestTryBody r =
      ReqResult.err
        ("Rate limit exceeded. Retry after " ++ r.retryAfter.getD "60" ++ " seconds.") := by
    simp only [requestTryBody]
    rw [if_pos h]
  refine ⟨?_, hcl⟩
  simp only [codaRequest]
  rw [htb]
  show ReqResult.err (rethrowFilter _) = _
  rw [rethrow_of_classify _ (by rw [hcl]; decide)]

/-- Witness for C3 at a concrete 429 response without a `Retry-After`
header, yielding the default of 60 seconds. -/
theorem request_rate_limited_witness :
    codaRequest (Except.ok
        { status := 429, reason := "Too Many Requests", retryAfter := Option.none,
          body := "", decoded := Option.none }) =
      ReqResult.err "Rate limit exceeded. Retry after 60 seconds." ∧
    classifyError "Rate limit exceeded. Retry after 60 seconds." = ErrKind.rateLimited :=
  request_rate_limited
    { status := 429, reason := "Too Many Requests", retryAfter := Option.none,
      body := "", decoded := Option.none } rfl

/-- C5: a 2xx response other than 204 whose non-empty body is not valid
JSON makes `CodaClient.request` fail with the invalid-JSON error; the
message keeps the raw body truncated to its first 200 characters, and the
error is classified as malformed, a kind distinct from the API-error kind. -/
theorem request_malformed (r : HttpResponse) (h1 : 200 ≤ r.status) (h2 : r.status < 300)
    (h204 : r.status ≠ 204) (hb : r.body ≠ "") (hd : r.decoded = Option.none) :
    codaRequest (Except.ok r) =
      ReqResult.err ("Invalid JSON response: " ++ r.body.take 200) ∧
    classifyError ("Invalid JSON response: " ++ r.body.take 200) = ErrKind.malformed ∧
    ErrKind.malformed ≠ ErrKind.api := by
  have hcl : classifyError ("Invalid JSON response: " ++ r.body.take 200) =
      ErrKind.malformed := classify_invalid _
  have h429 : r.status ≠ 429 := by omega
  have hok : ¬(responseOk r.status = false) := by
    simp [responseOk]
    omega
  have htb : requestTryBody r =
      ReqResult.err ("Invalid JSON response: " ++ r.body.take 200) := by
    simp only [requestTryBody]
    rw [if_neg h429, if_neg hok, if_neg h204, if_neg hb, hd]
  refine ⟨?_, hcl, by decide⟩
  simp only [codaRequest]
  rw [htb]
  show ReqResult.err (rethrowFilter _) = _
  rw [rethrow_of_classify _ (by rw [hcl]; decide)]

/-- Witness for C5 at a concrete 200 response with an undecodable body. -/
theorem request_malformed_witness :
    codaRequest (Except.ok
        { status := 200, reason := "OK", retryAfter := Option.none,
          body := "oops", decoded := Option.none }) =
      ReqResult.err "Invalid JSON response: oops" ∧
    classifyError "Invalid JSON response: oops" = ErrKind.malformed ∧
    ErrKind.malformed ≠ ErrKind.api :=
  request_malformed
    { status := 200, reason := "OK", retryAfter := Option.none,
      body := "oops", decoded := Option.none }
    (by decide) (by decide) (by decide) (by decide) rfl

/-- C10: every 2xx response with an empty body text, 204 included, makes
`CodaClient.request` succeed with the empty mapping; the decoded field of
the response is arbitrary here, so JSON decoding can never classify an
empty 2xx body as malformed. -/
theorem request_empty_body (r : HttpResponse) (h1 : 200 ≤ r.status) (h2 : r.status < 300)
    (hb : r.body = "") :
    codaRequest (Except.ok r) = ReqResult.ok (Val.dictV []) := by
  have h429 : r.status ≠ 429 := by omega
  have hok : ¬(responseOk r.status = false) := by
    simp [responseOk]
    omega
  simp only [codaRequest, requestTryBody]
  rw [if_neg h429, if_neg hok]
  by_cases h204 : r.status = 204
  · rw [if_pos h204]
  · rw [if_neg h204, if_pos hb]

/-- Witness for C10 at a 204 response and at a 200 response with an empty
body (the latter with a nonsensical decoded field, showing decoding is
irrelevant). -/
theorem request_empty_body_witness :
    codaRequest (Except.ok
        { status := 204, reason := "No Content", retryAfter := Option.none,
          body := "", decoded := Option.none }) = ReqResult.ok (Val.dictV []) ∧
    codaRequest (Except.ok
        { status := 200, reason := "OK", retryAfter := Option.none,
          body := "", decoded := some (Val.intV 7) }) = ReqResult.ok (Val.dictV []) :=
  ⟨request_empty_body
      { status := 204, reason := "No Content", retryAfter := Option.none,
        body := "", decoded := Option.none } (by decide) (by decide) rfl,
   request_empty_body
      { status := 200, reason := "OK", retryAfter := Option.none,
        body := "", decoded := some (Val.intV 7) } (by decide) (by decide) rfl⟩

/-- C4 (amended): for every response with status at least 400 other than
429, `CodaClient.request` fails with an API error whose message follows the
source's precedence: a non-empty decoded JSON mapping supplies its
`message` field, else its `error` field, else the reason phrase; when the
body does not decode to a non-empty JSON mapping, the raw body text is used
when non-empty, else the reason phrase.  The message is classified as the
API-error kind. -/
theorem request_api_error (r : HttpResponse) (h400 : 400 ≤ r.status)
    (h429 : r.status ≠ 429) :
    codaRequest (Except.ok r) = ReqResult.err (apiErrorMessageSpec r) ∧
    classifyError (apiErrorMessageSpec r) = ErrKind.api := by
  obtain ⟨t, ht⟩ := apiErrorMessage_shape r
  have hspec : apiErrorMessageSpec r = "API Error " ++ t := by
    rw [← apiErrorMessage_eq_spec, ht]
  have hcl : classifyError (apiErrorMessageSpec r) = ErrKind.api := by
    rw [hspec]
    exact classify_api t
  have hok : responseOk r.status = false := by
    simp [responseOk]
    omega
  have htb : requestTryBody r = ReqResult.err (apiErrorMessage r) := by
    simp only [requestTryBody]
    rw [if_neg h429, if_pos hok]
  refine ⟨?_, hcl⟩
  simp only [codaRequest]
  rw [htb]
  show ReqResult.err (rethrowFilter (apiErrorMessage r)) = _
  rw [apiErrorMessage_eq_spec, rethrow_of_classify _ (by rw [hcl]; decide)]

/-- Witness for C4 (amended) at a 500 response whose decoded body carries a
`message` field. -/
theorem request_api_error_witness :
    codaRequest (Except.ok
        { status := 500, reason := "Internal Server Error", retryAfter := Option.none,
          body := "\x7b\x22message\x22: \x22boom\x22\x7d",
          decoded := some (Val.dictV [("message", Val.strV "boom")]) }) =
      ReqResult.err "API Error 500: boom" ∧
    classifyError "API Error 500: boom" = ErrKind.api :=
  request_api_error
    { status := 500, reason := "Internal Server Error", retryAfter := Option.none,
      body := "\x7b\x22message\x22: \x22boom\x22\x7d",
      decoded := some (Val.dictV [("message", Val.strV "boom")]) }
    (by decide) (by decide)

/-- Counterexample to C4 as stated.  First: a 404 whose body decodes to a
non-empty JSON mapping with neither a `message` nor an `error` field is
reported with the reason phrase, not with the non-empty raw body text the
claim prescribes.  Second: a 304 response is a non-2xx, non-429 status,
yet `request` succeeds (aiohttp's `response.ok` is `status < 400`), so no
ApiError is raised at all. -/
theorem request_api_error_counterexample :
    codaRequest (Except.ok
        { status := 404, reason := "Not Found", retryAfter := Option.none,
          body := "\x7b\x22detail\x22: \x22nope\x22\x7d",
          decoded := some (Val.dictV [("detail", Val.strV "nope")]) }) =
      ReqResult.err "API Error 404: Not Found" ∧
    "API Error 404: Not Found" ≠
      "API Error 404: " ++ "\x7b\x22detail\x22: \x22nope\x22\x7d" ∧
    codaRequest (Except.ok
        { status := 304, reason := "Not Modified", retryAfter := Option.none,
          body := "", decoded := Option.none }) = ReqResult.ok (Val.dictV []) := by
  refine ⟨rfl, by decide, rfl⟩

/-- C7 (amended): `CodaClient.__init__` is total and raises nothing.  The
token resolves to the environment variable when set, else to the explicitly
passed token; when both are absent the client is still constructed, with
`api_token = None` and the literal header value `"Bearer None"`, and the
missing credential can only surface later, when a request is rejected
upstream. -/
theorem coda_client_init_spec :
    (∀ ev tok : String, (CodaClient.init (some ev) (some tok)).api_token = some ev) ∧
    (∀ ev : String, (CodaClient.init (some ev) Option.none).api_token = some ev) ∧
    (∀ tok : String, (CodaClient.init Option.none (some tok)).api_token = some tok) ∧
    (∀ env tok : Option String,
      (CodaClient.init env tok).headers =
        [("Authorization", "Bearer " ++ pyOptStr (CodaClient.init env tok).api_token),
         ("Content-Type", "application/json")]) ∧
    (CodaClient.init Option.none Option.none).api_token = Option.none ∧
    (CodaClient.init Option.none Option.none).headers =
      [("Authorization", "Bearer None"), ("Content-Type", "application/json")] :=
  ⟨fun _ _ => rfl, fun _ => rfl, fun _ => rfl, fun _ _ => rfl, rfl, rfl⟩

/-- Counterexample to C7 as stated: constructing the client with the
environment variable unset and no explicit token succeeds and yields a
client value — `api_token` is `None` and the `Authorization` header is the
literal `"Bearer None"` — rather than failing at construction time with a
configuration error. -/
theorem coda_client_init_counterexample :
    (CodaClient.init Option.none Option.none).api_token = Option.none ∧
    (CodaClient.init Option.none Option.none).headers =
      [("Authorization", "Bearer None"), ("Content-Type", "application/json")] ∧
    (CodaClient.init Option.none Option.none).base_url = "https://coda.io/apis/v1" :=
  ⟨rfl, rfl, rfl⟩

/-- C8 (amended): `upsert_rows` and `update_row` pass their JSON bodies
through `clean_params`, so a set `disable_parsing` boolean reaches the body
as the string `"true"`/`"false"`, not as a native boolean; an unset
`disable_parsing` is omitted while `rows` and `keyColumns` are kept; only
`update_page` builds its body without `clean_params` and therefore keeps
`is_hidden` as a native boolean. -/
theorem body_boolean_handling :
    (∀ (rows kc : List Val) (b : Bool),
      upsert_rows_body rows (Val.listV kc) (Val.boolV b) =
        [("rows", Val.listV rows), ("keyColumns", Val.listV kc),
         ("disableParsing", Val.strV (if b then "true" else "false"))]) ∧
    (∀ rows kc : List Val,
      upsert_rows_body rows (Val.listV kc) Val.null =
        [("rows", Val.listV rows), ("keyColumns", Val.listV kc)]) ∧
    (∀ (row : List (String × Val)) (b : Bool),
      update_row_body row (Val.boolV b) =
        [("row", Val.dictV row),
         ("disableParsing", Val.strV (if b then "true" else "false"))]) ∧
    (∀ (n s i im c : Val) (h : Bool),
      ("isHidden", Val.boolV h) ∈ update_page_body n s i im (Val.boolV h) c) := by
  refine ⟨?_, ?_, ?_, ?_⟩
  · intro rows kc b
    simp [upsert_rows_body, clean_params]
  · intro rows kc
    simp [upsert_rows_body, clean_params]
  · intro row b
    simp [update_row_body, clean_params]
  · intro n s i im c h
    simp [update_page_body, Val.isNull]

/-- Counterexample to C8 as stated, at the specification's own upsert
scenario with `disable_parsing = True`: the POST body carries
`disableParsing` as the string `"true"`, not as the native boolean the
claim prescribes for JSON bodies. -/
theorem upsert_rows_body_counterexample :
    upsert_rows_body
        [Val.dictV [("cells",
          Val.listV [Val.dictV [("column", Val.strV "Name"), ("value", Val.strV "A")]])]]
        (Val.listV [Val.strV "Name"]) (Val.boolV true) =
      [("rows", Val.listV [Val.dictV [("cells",
          Val.listV [Val.dictV [("column", Val.strV "Name"), ("value", Val.strV "A")]])]]),
       ("keyColumns", Val.listV [Val.strV "Name"]),
       ("disableParsing", Val.strV "true")] ∧
    ("disableParsing", Val.boolV true) ∉
      upsert_rows_body
        [Val.dictV [("cells",
          Val.listV [Val.dictV [("column", Val.strV "Name"), ("value", Val.strV "A")]])]]
        (Val.listV [Val.strV "Name"]) (Val.boolV true) := by
  constructor
  · rfl
  · simp [upsert_rows_body, clean_params]

/-- C9: every failure `CodaClient.request` surfaces is recognized by the
source's own prefix discrimination (`isCustomError`), is left intact by the
re-raise filter (never remapped to the generic `"Unexpected error"` form),
and belongs to exactly one of the four kinds — network, rate-limited, API
error, malformed response — with the message carrying the underlying cause,
the retry-after value, the status code, or the offending body text
respectively. -/
theorem request_error_taxonomy (tr : Except String HttpResponse) (msg : String)
    (h : codaRequest tr = ReqResult.err msg) :
    isCustomError msg = true ∧ rethrowFilter msg = msg ∧
    ((∃ cause, tr = Except.error cause ∧ classifyError msg = ErrKind.network ∧
        msg = "Network error: " ++ cause) ∨
     (∃ r, tr = Except.ok r ∧ r.status = 429 ∧
        classifyError msg = ErrKind.rateLimited ∧
        msg = "Rate limit exceeded. Retry after " ++ r.retryAfter.getD "60" ++
          " seconds.") ∨
     (∃ r, tr = Except.ok r ∧ 400 ≤ r.status ∧ r.status ≠ 429 ∧
        classifyError msg = ErrKind.api ∧
        ∃ t, msg = "API Error " ++ t) ∨
     (∃ r, tr = Except.ok r ∧ r.decoded = Option.none ∧ r.body ≠ "" ∧
        classifyError msg = ErrKind.malformed ∧
        msg = "Invalid JSON response: " ++ r.body.take 200)) := by
  cases tr with
  | error cause =>
    simp only [codaRequest] at h
    injection h with h'
    subst h'
    have hcl := classify_network cause
    exact ⟨isCustom_of_classify _ (by rw [hcl]; decide),
           rethrow_of_classify _ (by rw [hcl]; decide),
           Or.inl ⟨cause, rfl, hcl, rfl⟩⟩
  | ok r =>
    simp only [codaRequest] at h
    cases hb : requestTryBody r with
    | ok v => rw [hb] at h; exact absurd h (by simp)
    | err m =>
      rw [hb] at h
      injection h with h'
      simp only [requestTryBody] at hb
      by_cases h429 : r.status = 429
      · rw [if_pos h429] at hb
        injection hb with hm
        have hclm : classifyError m = ErrKind.rateLimited := by
          rw [← hm, String.append_assoc]
          exact classify_rate _
        have hre : rethrowFilter m = m := rethrow_of_classify _ (by rw [hclm]; decide)
        have hmsg : msg = m := by rw [← h', hre]
        subst hmsg
        exact ⟨isCustom_of_classify _ (by rw [hclm]; decide), hre,
               Or.inr (Or.inl ⟨r, rfl, h429, hclm, hm.symm⟩)⟩
      · rw [if_neg h429] at hb
        by_cases hok : responseOk r.status = false
        · rw [if_pos hok] at hb
          injection hb with hm
          obtain ⟨t, ht⟩ := apiErrorMessage_shape r
          have hclm : classifyError m = ErrKind.api := by
            rw [← hm, ht]
            exact classify_api t
          have hre : rethrowFilter m = m := rethrow_of_classify _ (by rw [hclm]; decide)
          have hmsg : msg = m := by rw [← h', hre]
          subst hmsg
          have h400 : 400 ≤ r.status := by
            simp [responseOk] at hok
            omega
          exact ⟨isCustom_of_classify _ (by rw [hclm]; decide), hre,
                 Or.inr (Or.inr (Or.inl ⟨r, rfl, h400, h429, hclm,
                   t, by rw [← hm, ht]⟩))⟩
        · rw [if_neg hok] at hb
          by_cases h204 : r.status = 204
          · rw [if_pos h204] at hb
            exact ReqResult.noConfusion hb
          · rw [if_neg h204] at hb
            by_cases hbody : r.body = ""
            · rw [if_pos hbody] at hb
              exact ReqResult.noConfusion hb
            · rw [if_neg hbody] at hb
              cases hd : r.decoded with
              | some v => rw [hd] at hb; exact ReqResult.noConfusion hb
              | none =>
                rw [hd] at hb
                injection hb with hm
                have hclm : classifyError m = ErrKind.malformed := by
                  rw [← hm]
                  exact classify_invalid _
                have hre : rethrowFilter m = m :=
                  rethrow_of_classify _ (by rw [hclm]; decide)
                have hmsg : msg = m := by rw [← h', hre]
                subst hmsg
                exact ⟨isCustom_of_classify _ (by rw [hclm]; decide), hre,
                       Or.inr (Or.inr (Or.inr ⟨r, rfl, hd, hbody, hclm, hm.symm⟩))⟩

/-- Witness for C9 at a concrete transport failure. -/
theorem request_error_taxonomy_witness :
    isCustomError "Network error: boom" = true ∧
    rethrowFilter "Network error: boom" = "Network error: boom" ∧
    ((∃ cause, (Except.error "boom" : Except String HttpResponse) = Except.error cause ∧
        classifyError "Network error: boom" = ErrKind.network ∧
        "Network error: boom" = "Network error: " ++ cause) ∨
     (∃ r, (Except.error "boom" : Except String HttpResponse) = Except.ok r ∧
        r.status = 429 ∧
        classifyError "Network error: boom" = ErrKind.rateLimited ∧
        "Network error: boom" = "Rate limit exceeded. Retry after " ++
          r.retryAfter.getD "60" ++ " seconds.") ∨
     (∃ r, (Except.error "boom" : Except String HttpResponse) = Except.ok r ∧
        400 ≤ r.status ∧ r.status ≠ 429 ∧
        classifyError "Network error: boom" = ErrKind.api ∧
        ∃ t, "Network error: boom" = "API Error " ++ t) ∨
     (∃ r, (Except.error "boom" : Except String HttpResponse) = Except.ok r ∧
        r.decoded = Option.none ∧ r.body ≠ "" ∧
        classifyError "Network error: boom" = ErrKind.malformed ∧
        "Network error: boom" = "Invalid JSON response: " ++ r.body.take 200)) :=
  request_error_taxonomy (Except.error "boom") "Network error: boom" rfl
